import Mathlib

/-!
Verification of the session-state and cross-component synchronization layer of
the Suraksh dashboard frontend.

The embedding below translates the TypeScript sources into Lean:
* `useAuthStore` (zustand store with `persist` middleware, file
  `frontend/src/store/auth-store.ts`): in-memory session plus the persisted
  `"auth-storage"` record and the legacy `"auth_token"` mirror key.
* `ApiClient` (`frontend/src/lib/api/client.ts`): `getToken` fallback chain,
  `clearToken`, and the 401 response interceptor.
* the notification utility (`frontend/src/lib/utils/notifications.ts`).
* the dashboard route guard (`frontend/src/app/dashboard/layout.tsx`).
* the `window` event bus used for the `graph-data-updated` signal.

Browser storage is modelled explicitly: the `"auth-storage"` key holds either
invalid JSON (`StoredAuth.malformed`, on which `JSON.parse` throws) or a parsed
object; the `"auth_token"` key holds an optional plain string.  JavaScript
truthiness tests (`if (token)`) are modelled by `strTruthy`: `null`/absent and
the empty string are falsy.  All code is modelled client-side
(`typeof window !== "undefined"`), with the `ApiClient` token accessors
registered (the module-level registration in `auth-store.ts` runs at import
time in the browser), so the registered `clearAuthToken` is `logout` and the
registered `getAuthToken` reads the in-memory token.
-/

namespace Suraksh

/-- JavaScript truthiness of an optional string value: `null`/`undefined` and
`""` are falsy, every other string is truthy.  Used wherever the source writes
`if (token)` on a string. -/
def strTruthy : Option String → Bool
  | none => false
  | some s => !(s == "")

/-- `UserResponse` from `frontend/src/lib/api/auth.ts`:
`{ username, email, clearance_level, is_active }`. -/
structure UserProfile where
  username : String
  email : String
  clearanceLevel : String
  isActive : Bool
deriving DecidableEq, Repr

/-- The in-memory zustand auth state (`AuthState` in `auth-store.ts`):
`user`, `token`, `isAuthenticated`. -/
structure AuthMem where
  user : Option UserProfile
  token : Option String
  isAuthenticated : Bool
deriving DecidableEq, Repr

/-- The `state` object inside the persisted `"auth-storage"` JSON, i.e. the
partialized zustand state `{ token, user }` (see `partialize` in
`auth-store.ts`). -/
structure PersistState where
  token : Option String
  user : Option UserProfile
deriving DecidableEq, Repr

/-- The content stored under the `"auth-storage"` key: either a string that is
not valid JSON (`JSON.parse` throws on it), or a parsed object with an optional
`state` field and an optional `version` field (`parsed.state?.token` in the
source tolerates a missing `state`). -/
inductive StoredAuth where
  | malformed : StoredAuth
  | wellFormed (state : Option PersistState) (version : Option Nat) : StoredAuth
deriving DecidableEq, Repr

/-- The composed session-layer state: the in-memory zustand store, the
`"auth-storage"` key (`none` = key absent) and the legacy `"auth_token"`
mirror key (`none` = key absent). -/
structure SessionState where
  mem : AuthMem
  record : Option StoredAuth
  mirror : Option String
deriving DecidableEq, Repr

/-- What the zustand `persist` middleware writes to `"auth-storage"` after
every `set`: `{"state": {token, user}, "version": 0}`. -/
def persistRecord (m : AuthMem) : StoredAuth :=
  .wellFormed (some ⟨m.token, m.user⟩) (some 0)

/-- The empty in-memory session (`user: null, token: null,
isAuthenticated: false`), the store's initial state. -/
def emptyMem : AuthMem := ⟨none, none, false⟩

/-- Process-start state: empty in-memory store, both storage keys absent. -/
def initState : SessionState := ⟨emptyMem, none, none⟩

/-- `useAuthStore.setUser`: `set({ user, isAuthenticated: !!user })`; the
`persist` middleware then rewrites `"auth-storage"`.  Does not touch the
mirror. -/
def setUser (u : Option UserProfile) (st : SessionState) : SessionState :=
  let m : AuthMem := { st.mem with user := u, isAuthenticated := u.isSome }
  { st with mem := m, record := some (persistRecord m) }

/-- `useAuthStore.setToken`: `set({ token })` (persisted by the middleware),
then `if (token) localStorage.setItem("auth_token", token) else
localStorage.removeItem("auth_token")`. -/
def setToken (t : Option String) (st : SessionState) : SessionState :=
  let m : AuthMem := { st.mem with token := t }
  { st with
      mem := m
      record := some (persistRecord m)
      mirror := if strTruthy t then t else none }

/-- `useAuthStore.logout`: `set({ user: null, token: null,
isAuthenticated: false })` (persisted by the middleware), then
`localStorage.removeItem("auth_token")`. -/
def logout (_st : SessionState) : SessionState :=
  { mem := emptyMem
    record := some (persistRecord emptyMem)
    mirror := none }

/-- Which branch of `ApiClient.getToken` produced the result: the parsed
`"auth-storage"` record, the registered accessor, the legacy `"auth_token"`
key, or none of them. -/
inductive TokenSource where
  | record | accessor | legacy | nothing
deriving DecidableEq, Repr

/-- The legacy-fallback tail of `ApiClient.getToken`: read `"auth_token"`;
if truthy, attempt the migration into `"auth-storage"` inside a
`try`/`catch` (a malformed record makes `JSON.parse` throw, the `catch`
leaves everything unchanged and the legacy token is returned anyway). -/
def legacyBranch (st : SessionState) : TokenSource × Option String × SessionState :=
  match st.mirror with
  | some lt =>
    if lt ≠ "" then
      let st' : SessionState :=
        match st.record with
        | some (.wellFormed p v) =>
          if strTruthy (p.bind (·.token)) then st
          else
            { st with record := some (.wellFormed (some ⟨some lt, p.bind (·.user)⟩) v) }
        | some .malformed => st
        | none =>
          { st with record := some (.wellFormed (some ⟨some lt, none⟩) (some 0)) }
      (.legacy, some lt, st')
    else (.nothing, none, st)
  | none => (.nothing, none, st)

/-- The accessor fallback of `ApiClient.getToken`: `getAuthToken()` (the
registered accessor reads the in-memory zustand token); if truthy it is
written to `"auth_token"` and returned, otherwise fall through to the
legacy branch. -/
def accessorBranch (st : SessionState) : TokenSource × Option String × SessionState :=
  if strTruthy st.mem.token then
    (.accessor, st.mem.token, { st with mirror := st.mem.token })
  else legacyBranch st

/-- `ApiClient.getToken`, with the branch that produced the result made
explicit.  Primary path: parse `"auth-storage"` (inside `try`/`catch`; a
malformed record falls through exactly like an absent one), read
`parsed.state?.token`; if truthy, sync it to `"auth_token"` and return it.
Otherwise the accessor branch, then the legacy branch.  The function is
total: every `JSON.parse` site in the source is wrapped in `try`/`catch`,
so `getToken` never raises. -/
def getTokenFull (st : SessionState) : TokenSource × Option String × SessionState :=
  match st.record with
  | some (.wellFormed p _) =>
    let token := p.bind (·.token)
    if strTruthy token then (.record, token, { st with mirror := token })
    else accessorBranch st
  | some .malformed => accessorBranch st
  | none => accessorBranch st

/-- `ApiClient.getToken` as the caller sees it: the returned value and the
storage side effects. -/
def getToken (st : SessionState) : Option String × SessionState :=
  ((getTokenFull st).2.1, (getTokenFull st).2.2)

/-- `ApiClient.clearToken`: call the registered `clearAuthToken` (which is
`useAuthStore`'s `logout`), then `localStorage.removeItem("auth_token")`. -/
def clearToken (st : SessionState) : SessionState :=
  let st' := logout st
  { st' with mirror := none }

/-- `String.prototype.startsWith`, modelled character-wise (Lean's own
`String.startsWith` is not kernel-reducible, so the check is stated on the
underlying character lists). -/
def pathStartsWith (p pre : String) : Bool := pre.data.isPrefixOf p.data

/-- The `ApiClient` response-interceptor error handler, as a function of the
response status and the current location pathname.  On a 401 off the login
view: `clearToken()`, then the manual `"auth-storage"` clear (parse, null out
`state.token`/`state.user`, rewrite; a parse failure is caught and ignored),
then `window.location.href = "/auth/login"` (the returned flag).  Every other
response, and a 401 while already on `/auth/login`, leaves the state untouched
and performs no redirect. -/
def handleResponseError (status : Nat) (pathname : String) (st : SessionState) :
    SessionState × Bool :=
  if status == 401 then
    if !(pathStartsWith pathname "/auth/login") then
      let st₁ := clearToken st
      let st₂ : SessionState :=
        match st₁.record with
        | some (.wellFormed _ v) =>
          { st₁ with record := some (.wellFormed (some ⟨none, none⟩) v) }
        | some .malformed => st₁
        | none => st₁
      (st₂, true)
    else (st, false)
  else (st, false)

/-- The state the 401 teardown converges to: empty in-memory session, a
persisted record with null token and user, no mirror key. -/
def teardownState : SessionState :=
  ⟨emptyMem, some (.wellFormed (some ⟨none, none⟩) (some 0)), none⟩

/-! ## Notification store (`frontend/src/lib/utils/notifications.ts`) -/

/-- The decimal digit character for `n < 10` (`'0'` has code 48). -/
def decDigit (n : Nat) : Char := Char.ofNat (48 + n)

/-- The decimal digit string of a natural number, most significant digit
first — what the JavaScript template literal `${Date.now()}` produces for the
integer timestamp. -/
def decChars (n : Nat) : List Char :=
  if _h : n < 10 then [decDigit n]
  else decChars (n / 10) ++ [decDigit (n % 10)]
decreasing_by exact Nat.div_lt_self (by omega) (by omega)

/-- The decimal rendering of a natural number as a string. -/
def decimalStr (n : Nat) : String := ⟨decChars n⟩

/-- `generateNotificationId`:
`` `notif-${Date.now()}-${Math.random().toString(36).substr(2, 9)}` ``.
`now` is the millisecond clock reading and `rand` the base-36 fragment that
`Math.random()` produced for this call. -/
def generateNotificationId (now : Nat) (rand : String) : String :=
  "notif-" ++ decimalStr now ++ "-" ++ rand

/-- The notification `type` field: `"info" | "success" | "warning" |
"error"`. -/
inductive NotifKind where
  | info | success | warning | error
deriving DecidableEq, Repr

/-- The `Notification` interface.  The source's `type` field is called `kind`
here (`type` is a Lean keyword); `timestamp` is the millisecond clock value
of the `Date`. -/
structure Notification where
  id : String
  kind : NotifKind
  title : String
  message : String
  timestamp : Nat
  read : Bool
  actionUrl : Option String
deriving DecidableEq, Repr

/-- `MAX_NOTIFICATIONS = 50`. -/
def MAX_NOTIFICATIONS : Nat := 50

/-- Stable insertion into a timestamp-descending list: the new element goes
before the first element with a strictly smaller timestamp, after every
element with a greater-or-equal one. -/
def insertByTimestampDesc (n : Notification) :
    List Notification → List Notification
  | [] => [n]
  | m :: ms =>
    if n.timestamp < m.timestamp then m :: insertByTimestampDesc n ms
    else n :: m :: ms

/-- `notifications.sort((a, b) => b.timestamp - a.timestamp)`:
`Array.prototype.sort` is stable, and this comparator orders by timestamp
descending, so the call computes the stable timestamp-descending sort,
modelled by stable insertion sort. -/
def sortByTimestampDesc : List Notification → List Notification
  | [] => []
  | a :: as => insertByTimestampDesc a (sortByTimestampDesc as)

/-- `saveNotifications`: sort by timestamp descending (stable) and keep only
the first `MAX_NOTIFICATIONS` entries, then persist.  The persisted
notification list is modelled directly as the list of entries. -/
def saveNotifications (ns : List Notification) : List Notification :=
  (sortByTimestampDesc ns).take MAX_NOTIFICATIONS

/-- `getNotifications` on a well-formed store: parsing the persisted JSON
array and reviving the `Date`s returns the stored entries unchanged. -/
def listNotifications (store : List Notification) : List Notification := store

/-- The per-call inputs of `createNotification`: the caller-supplied fields
plus the clock reading (`Date.now()`, also used for the entry's `timestamp`)
and the `Math.random()` fragment consumed by `generateNotificationId`. -/
structure CreateInput where
  kind : NotifKind
  title : String
  message : String
  actionUrl : Option String
  now : Nat
  rand : String
deriving DecidableEq, Repr

/-- The entry `createNotification` builds: fresh id, `timestamp = now`,
`read = false`. -/
def builtNotification (c : CreateInput) : Notification :=
  { id := generateNotificationId c.now c.rand
    kind := c.kind
    title := c.title
    message := c.message
    timestamp := c.now
    read := false
    actionUrl := c.actionUrl }

/-- `createNotification`: build the entry, prepend it to the existing list,
save (sort + truncate), and return the created entry. -/
def createNotification (c : CreateInput) (store : List Notification) :
    Notification × List Notification :=
  let n := builtNotification c
  (n, saveNotifications (n :: store))

/-- The store contents after `k` sequential `createNotification` calls from
the empty store, the `j`-th call taking inputs `inp j`. -/
def createSeq (inp : Nat → CreateInput) : Nat → List Notification
  | 0 => []
  | k + 1 => (createNotification (inp k) (createSeq inp k)).2

/-! ## Cross-component event bus

Modelled from the spec: the Cross-Component Event Bus is realized by
`window.addEventListener` / `window.dispatchEvent` (the dispatch site in the
vault page and the `graph-data-updated` listener in the graph page are in
`src/`, but the event-target implementation is the browser's and is not part
of the repository).  Per spec §4.4, `publish` delivers synchronously to every
currently-registered listener for the name, in registration order, with no
persistence, queueing, or replay; `subscribe` appends a listener and
`unsubscribe` removes it. -/

/-- The bus state: the registered listeners, as (event name, handler id)
pairs in registration order. -/
structure EventBus where
  listeners : List (String × Nat)
deriving DecidableEq, Repr

/-- One bus operation: subscribe a handler to a name, unsubscribe it, or
publish an occurrence of a name with a payload. -/
inductive BusOp where
  | sub (name : String) (h : Nat)
  | unsub (name : String) (h : Nat)
  | pub (name : String) (payload : Nat)
deriving DecidableEq, Repr

/-- How each operation changes the registered-listener state: `pub` is
fire-and-forget and leaves no trace in the bus state. -/
def busStep (b : EventBus) : BusOp → EventBus
  | .sub n h => ⟨b.listeners ++ [(n, h)]⟩
  | .unsub n h => ⟨b.listeners.filter (fun q => !(q == (n, h)))⟩
  | .pub _ _ => b

/-- The bus state after a sequence of operations, starting with no
listeners. -/
def busAfter (ops : List BusOp) : EventBus := ops.foldl busStep ⟨[]⟩

/-- The deliveries of the occurrence at trace position `i`: if `ops[i]` is a
`pub`, every listener registered for that name at that moment receives the
payload, synchronously during the publish, in registration order.  Positions
that are not publishes deliver nothing, and an occurrence is delivered only
at its own position — there is no queue to replay it from. -/
def deliveredAt (ops : List BusOp) (i : Nat) : List (Nat × Nat) :=
  match ops[i]? with
  | some (.pub n p) =>
    ((busAfter (ops.take i)).listeners.filter (fun q => q.1 == n)).map
      (fun q => (q.2, p))
  | _ => []

/-! ## Route guard (`frontend/src/app/dashboard/layout.tsx`) -/

/-- The component-local guard state of `DashboardLayout`: the `isClient` and
`hasCheckedAuth` `useState` flags, whether the `setTimeout(checkAuth, 0)`
callback has been scheduled, and whether `router.push("/auth/login")` has
been invoked. -/
structure GuardState where
  isClient : Bool
  hasCheckedAuth : Bool
  checkScheduled : Bool
  redirected : Bool
deriving DecidableEq, Repr

/-- What the layout renders: the neutral loading affordance or the protected
`AppShell` content. -/
inductive RenderOutput where
  | loadingView | protectedView
deriving DecidableEq, Repr

/-- The render function of `DashboardLayout`: `if (!isClient ||
!hasCheckedAuth)` render the loading view, else the protected content.
Rendering is pure — `router.push` is never called from the render path. -/
def renderGuard (g : GuardState) : RenderOutput :=
  if !g.isClient || !g.hasCheckedAuth then .loadingView else .protectedView

/-- `checkAuth`'s decision, reading the session state at the moment the
delayed callback fires: `currentToken = token ||
localStorage.getItem("auth_token")`, `hasAuth = isAuthenticated ||
!!currentToken` — the persisted mirror is consulted directly so that the
check sees the rehydrated storage even if the in-memory store lagged. -/
def hasAuthOf (st : SessionState) : Bool :=
  st.mem.isAuthenticated || strTruthy st.mem.token || strTruthy st.mirror

/-- The events that drive the guard: the post-mount `useEffect` that sets
`isClient`, the auth `useEffect` that (only once `isClient` holds) schedules
`setTimeout(checkAuth, 0)`, and the firing of that scheduled callback, which
reads the session state as it is then. -/
inductive GuardEvent where
  | clientEffect
  | authEffect
  | checkFires (sess : SessionState)

/-- The guard transition function.  `checkAuth` either marks the check passed
(`setHasCheckedAuth(true)`) or performs `router.push("/auth/login")`; it can
run only if it was scheduled, and it is scheduled only by the auth effect
after the client flag is set. -/
def guardStep (g : GuardState) : GuardEvent → GuardState
  | .clientEffect => { g with isClient := true }
  | .authEffect => if g.isClient then { g with checkScheduled := true } else g
  | .checkFires sess =>
    if g.checkScheduled then
      if hasAuthOf sess then { g with hasCheckedAuth := true }
      else { g with redirected := true }
    else g

/-- The guard state at first render: server-side markup, nothing checked,
nothing scheduled, no redirect. -/
def initGuard : GuardState := ⟨false, false, false, false⟩

/-! ## Derived notions used by the theorems -/

/-- A Session Manager call: `useAuthStore.setToken` or `useAuthStore.logout`
(the two operations quantified over by the mirror-consistency property). -/
inductive SessionCall where
  | setTok (t : Option String)
  | doLogout
deriving Repr

/-- Apply one Session Manager call to the session state. -/
def applyCall : SessionCall → SessionState → SessionState
  | .setTok t, st => setToken t st
  | .doLogout, st => logout st

/-- Apply a sequence of Session Manager calls, oldest first. -/
def applySeq (l : List SessionCall) (st : SessionState) : SessionState :=
  l.foldl (fun s c => applyCall c s) st

/-- The mirror-consistency invariant as the spec states it: the legacy
`"auth_token"` key is present iff the session record's token is non-null,
and equal in value when present. -/
def mirrorMatches (st : SessionState) : Prop :=
  (st.mirror.isSome ↔ st.mem.token.isSome) ∧
    ∀ v, st.mirror = some v → st.mem.token = some v

/-- The mirror-consistency invariant the code actually maintains: the mirror
is present exactly when the token is non-null *and non-empty* (JavaScript
truthiness), and equal in value when present. -/
def mirrorMatchesTruthy (st : SessionState) : Prop :=
  ∀ v, st.mirror = some v ↔ st.mem.token = some v ∧ v ≠ ""

/-- The fail-open reading of the persisted `"auth-storage"` record: its
token and user when it parses and has a `state`, and no session otherwise. -/
def recObs : Option StoredAuth → Option String × Option UserProfile
  | some (.wellFormed (some p) _) => (p.token, p.user)
  | _ => (none, none)

/-- The observable session state the spec's properties talk about: the
in-memory session, the legacy mirror, and the (fail-open) content of the
structured record. -/
def sessionObs (st : SessionState) :
    AuthMem × Option String × (Option String × Option UserProfile) :=
  (st.mem, st.mirror, recObs st.record)

/-- The observables of a logged-out session. -/
def loggedOutObs :
    AuthMem × Option String × (Option String × Option UserProfile) :=
  (emptyMem, none, (none, none))

/-- Decimal value of a digit string, used to invert `decChars`. -/
def decVal (l : List Char) : Nat :=
  l.foldl (fun a c => 10 * a + (c.toNat - 48)) 0

/-- A concrete bus trace: handler 1 subscribes to `graph-data-updated`, the
ingestion site publishes it with payload 7, and handler 2 subscribes only
afterwards. -/
def busDemoOps : List BusOp :=
  [.sub "graph-data-updated" 1, .pub "graph-data-updated" 7,
    .sub "graph-data-updated" 2]

/-- Whether a guard event is the firing of the scheduled `checkAuth`
callback. -/
def isCheckEvent : GuardEvent → Bool
  | .checkFires _ => true
  | _ => false

/-- A state whose `"auth-storage"` record is corrupted while the legacy
mirror still holds a token and the in-memory store is empty — the storage a
fresh page load sees after the structured record was damaged. -/
def corruptedWithLegacy : SessionState := ⟨emptyMem, some .malformed, some "t"⟩

/-- A state whose `"auth-storage"` record is corrupted while the in-memory
store still holds a token `"a"` and the mirror holds a different value
`"b"`. -/
def corruptedWithMemToken : SessionState :=
  ⟨⟨none, some "a", true⟩, some .malformed, some "b"⟩

/-- Strictly-descending-timestamp ordering of a notification list, newest
first. -/
def tsSortedDesc (l : List Notification) : Prop :=
  List.Chain' (fun a b => b.timestamp < a.timestamp) l

/-- The store contents `k` sequential creates are expected to leave behind:
the `min k 50` most recently created entries, newest first. -/
def expectedWindow (inp : Nat → CreateInput) (k : Nat) : List Notification :=
  (List.range (min k 50)).map (fun i => builtNotification (inp (k - 1 - i)))

/-- The C7 claim as stated: in any sequence of creation calls — each call
`i` consuming a clock reading `(calls i).1` and a `Math.random()` fragment
`(calls i).2` — any two distinct calls yield distinct ids.  The code cannot
guarantee this: nothing prevents two calls in the same millisecond from
drawing the same random fragment. -/
def allDistinctCallsGiveDistinctIds : Prop :=
  ∀ calls : Nat → Nat × String, ∀ i j : Nat, i ≠ j →
    generateNotificationId (calls i).1 (calls i).2 ≠
      generateNotificationId (calls j).1 (calls j).2

/-! # Theorems -/

/-- C1 (confirmed): a 401 response received while not on the login view tears
the session down — in-memory token and user cleared, persisted record
emptied, mirror key removed — and triggers the redirect to `/auth/login`.  A
non-401 response, and a 401 received while already on the login view, leave
the session state untouched and trigger no redirect, so authorization
failures off the login view are the sole teardown trigger. -/
theorem c1_only_401_tears_down_and_redirects (status : Nat) (pathname : String)
    (st : SessionState) :
    (status = 401 → pathStartsWith pathname "/auth/login" = false →
      handleResponseError status pathname st = (teardownState, true)) ∧
    (status ≠ 401 → handleResponseError status pathname st = (st, false)) ∧
    (pathStartsWith pathname "/auth/login" = true →
      handleResponseError status pathname st = (st, false)) := by
  refine ⟨?_, ?_, ?_⟩
  · intro h hp
    subst h
    simp [handleResponseError, hp, clearToken, logout, persistRecord, emptyMem,
      teardownState]
  · intro h
    simp [handleResponseError, h]
  · intro hp
    by_cases h : status = 401
    · subst h; simp [handleResponseError, hp]
    · simp [handleResponseError, h]

/-- Witness for C1: a 401 on `/dashboard/vault` from a live session tears
down to the logged-out state and redirects, at a concrete input. -/
theorem c1_only_401_tears_down_and_redirects_witness :
    handleResponseError 401 "/dashboard/vault"
        ⟨⟨some ⟨"u", "e", "L1", true⟩, some "tok", true⟩, some .malformed,
          some "tok"⟩ =
      (teardownState, true) :=
  (c1_only_401_tears_down_and_redirects 401 "/dashboard/vault" _).1 rfl (by decide)

/-- C2 counterexample: the single-call sequence `setToken("")` leaves the
session record's token non-null (`""`) while the legacy mirror key is absent
(JavaScript `if (token)` treats `""` as falsy and removes the key), so the
claimed present-iff-non-null invariant fails after that call. -/
theorem c2_mirror_iff_nonnull_counterexample :
    ¬ mirrorMatches (applySeq [.setTok (some "")] initState) := by
  intro h
  have h1 := h.1
  simp [applySeq, applyCall, setToken, initState, emptyMem, strTruthy] at h1

/-- Any single Session Manager call establishes the truthiness-corrected
mirror invariant, whatever the starting state. -/
theorem applyCall_mirrorMatchesTruthy (c : SessionCall) (st : SessionState) :
    mirrorMatchesTruthy (applyCall c st) := by
  cases c with
  | setTok t =>
    cases t with
    | none => intro v; simp [applyCall, setToken, strTruthy]
    | some s =>
      intro v
      by_cases hs : s = ""
      · subst hs
        simp only [applyCall, setToken, strTruthy]
        simp
        exact fun h => h.symm
      · have hb : (s == "") = false := by simp [hs]
        simp only [applyCall, setToken, strTruthy, hb, Bool.not_false, if_pos]
        constructor
        · intro h
          cases h
          exact ⟨rfl, hs⟩
        · intro h
          rw [h.1]
  | doLogout => intro v; simp [applyCall, logout, emptyMem]

/-- The truthiness-corrected mirror invariant is preserved by any further
sequence of Session Manager calls. -/
theorem applySeq_mirrorMatchesTruthy (l : List SessionCall) (st : SessionState) :
    mirrorMatchesTruthy st → mirrorMatchesTruthy (applySeq l st) := by
  induction l generalizing st with
  | nil => exact fun h => h
  | cons c l ih => exact fun _ => ih (applyCall c st) (applyCall_mirrorMatchesTruthy c st)

/-- C2 amended (corrected): for every finite sequence of `setToken`/`logout`
calls from the initial state, after each call the legacy mirror key is
present iff the session record's token is non-null **and non-empty**, and
when present it holds the same value.  (The code treats the empty string as
falsy, so `setToken("")` stores the token but removes the mirror; apart from
that truthiness caveat the spec's invariant holds.) -/
theorem c2_mirror_consistency_truthy (l : List SessionCall) :
    mirrorMatchesTruthy (applySeq l initState) := by
  apply applySeq_mirrorMatchesTruthy
  intro v
  simp [initState, emptyMem]

/-- C6 (confirmed): `logout` is idempotent — two calls in succession produce
exactly the same state (in-memory session, structured record, legacy mirror)
as one — and calling it when the observable session is already logged out
changes none of the observables (and, being a total function, raises no
error). -/
theorem c6_logout_idempotent_and_noop (st : SessionState) :
    logout (logout st) = logout st ∧
      (sessionObs st = loggedOutObs → sessionObs (logout st) = sessionObs st) := by
  refine ⟨rfl, fun h => ?_⟩
  rw [h]
  rfl

/-- Witness for C6 at the concrete logged-out teardown state. -/
theorem c6_logout_idempotent_and_noop_witness :
    logout (logout teardownState) = logout teardownState ∧
      sessionObs (logout teardownState) = sessionObs teardownState :=
  ⟨(c6_logout_idempotent_and_noop teardownState).1,
    (c6_logout_idempotent_and_noop teardownState).2 rfl⟩

/-- The legacy branch never changes the mirror key. -/
theorem legacyBranch_mirror_eq (st : SessionState) :
    (legacyBranch st).2.2.mirror = st.mirror := by
  obtain ⟨m, r, mi⟩ := st
  cases mi with
  | none => rfl
  | some lt =>
    by_cases he : lt = ""
    · simp [legacyBranch, he]
    · simp only [legacyBranch, ne_eq, he, not_false_iff, if_true]
      cases r with
      | none => rfl
      | some sa =>
        cases sa with
        | malformed => rfl
        | wellFormed p v =>
          by_cases hp : strTruthy (p.bind (·.token))
          · simp [hp]
          · simp [hp]

/-- A token returned by the legacy branch is the mirror's value. -/
theorem legacyBranch_val (st : SessionState) (t : String)
    (h : (legacyBranch st).2.1 = some t) : st.mirror = some t := by
  obtain ⟨m, r, mi⟩ := st
  cases mi with
  | none => simp [legacyBranch] at h
  | some lt =>
    by_cases he : lt = ""
    · subst he; simp [legacyBranch] at h
    · simp only [legacyBranch, ne_eq, he, not_false_iff, if_true] at h
      simpa using h

/-- Whenever the legacy branch returns a token, the post-state's mirror key
holds that token (the value was read from the mirror and the branch never
removes it). -/
theorem legacyBranch_mirror (st : SessionState) (t : String)
    (h : (legacyBranch st).2.1 = some t) :
    (legacyBranch st).2.2.mirror = some t := by
  rw [legacyBranch_mirror_eq]
  exact legacyBranch_val st t h

/-- Whenever the accessor branch returns a token, the post-state's mirror
key holds that token. -/
theorem accessorBranch_mirror (st : SessionState) (t : String)
    (h : (accessorBranch st).2.1 = some t) :
    (accessorBranch st).2.2.mirror = some t := by
  by_cases ha : strTruthy st.mem.token
  · simp only [accessorBranch, ha, if_true] at h ⊢
    exact h
  · simp only [accessorBranch, ha, Bool.false_eq_true, if_false] at h ⊢
    exact legacyBranch_mirror st t h

/-- C10 (confirmed): every `getToken()` call that returns a non-null token —
from the structured record, the registered accessor, or the legacy key —
leaves that token in the legacy `"auth_token"` mirror when it returns: the
record and accessor branches write it there, and the legacy branch read it
from there and never removes it.  Thus the token read itself mutates
PersistedStore, and after any call returning `t` the mirror holds `t`. -/
theorem c10_getToken_syncs_mirror (st : SessionState) (t : String)
    (h : (getToken st).1 = some t) :
    (getToken st).2.mirror = some t := by
  obtain ⟨m, r, mi⟩ := st
  cases r with
  | none => exact accessorBranch_mirror ⟨m, none, mi⟩ t h
  | some sa =>
    cases sa with
    | malformed => exact accessorBranch_mirror ⟨m, some .malformed, mi⟩ t h
    | wellFormed p v =>
      by_cases hp : strTruthy (p.bind (·.token))
      · have e : getTokenFull ⟨m, some (.wellFormed p v), mi⟩ =
            (.record, p.bind (·.token),
              { mem := m, record := some (.wellFormed p v),
                mirror := p.bind (·.token) }) := by
          simp [getTokenFull, hp]
        simp only [getToken, e] at h ⊢
        exact h
      · have e : getTokenFull ⟨m, some (.wellFormed p v), mi⟩ =
            accessorBranch ⟨m, some (.wellFormed p v), mi⟩ := by
          simp [getTokenFull, hp]
        simp only [getToken, e] at h ⊢
        exact accessorBranch_mirror _ t h

/-- Witness for C10: with an in-memory token `"a"` and both storage keys
absent, `getToken` returns `"a"` and leaves it in the mirror. -/
theorem c10_getToken_syncs_mirror_witness :
    (getToken ⟨⟨none, some "a", true⟩, none, none⟩).2.mirror = some "a" :=
  c10_getToken_syncs_mirror ⟨⟨none, some "a", true⟩, none, none⟩ "a" (by decide)

/-- C3 counterexample: with the structured record corrupted, the in-memory
token `"a"` still registered, and the legacy key holding `"b"`, `getToken()`
returns `"a"` — the registered accessor is consulted *before* the legacy
mirror — not the mirror's value `"b"` the claim requires. -/
theorem c3_fail_open_counterexample :
    corruptedWithMemToken.record = some .malformed ∧
      corruptedWithMemToken.mirror = some "b" ∧
      (getToken corruptedWithMemToken).1 = some "a" ∧
      (getToken corruptedWithMemToken).1 ≠ some "b" := by decide

/-- C3 amended (corrected): if the structured session record contains
invalid JSON, `getToken()` does not raise — every parse site is inside
`try`/`catch` and the modelled function is total — and returns the
registered accessor's (in-memory) token when that is truthy, else the legacy
mirror's value when that is truthy, else `null`.  The spec's description
omits the accessor step that precedes the legacy fallback (and the
truthiness caveat for an empty stored string). -/
theorem c3_fail_open_on_corruption (st : SessionState)
    (h : st.record = some .malformed) :
    (getToken st).1 =
      (if strTruthy st.mem.token then st.mem.token
       else if strTruthy st.mirror then st.mirror else none) := by
  unfold getToken getTokenFull
  rw [h]
  unfold accessorBranch
  by_cases ha : strTruthy st.mem.token
  · rw [if_pos ha, if_pos ha]
  · rw [if_neg ha, if_neg (by simp [ha])]
    unfold legacyBranch
    cases hm : st.mirror with
    | none => simp [strTruthy]
    | some lt =>
      by_cases he : lt = ""
      · subst he; simp [strTruthy]
      · simp [strTruthy, he]

/-- Witness for C3: a fresh load over a corrupted record with mirror `"b"`
falls back to the accessor-then-mirror chain. -/
theorem c3_fail_open_on_corruption_witness :
    (getToken corruptedWithMemToken).1 =
      (if strTruthy corruptedWithMemToken.mem.token then
        corruptedWithMemToken.mem.token
       else if strTruthy corruptedWithMemToken.mirror then
        corruptedWithMemToken.mirror
       else none) :=
  c3_fail_open_on_corruption corruptedWithMemToken rfl

/-- C4 counterexample: with the structured record *malformed* (not absent)
and the legacy key holding `"t"`, `getToken()` takes the legacy fallback and
returns `"t"`, but the migration `try` block throws on `JSON.parse` and is
caught, so the record stays malformed and the immediately following
`getToken()` call again reads from the legacy key, not from the structured
record — the claimed migrate-on-fallback fails for the malformed case. -/
theorem c4_migration_counterexample :
    (getTokenFull corruptedWithLegacy).1 = .legacy ∧
      (getTokenFull corruptedWithLegacy).2.1 = some "t" ∧
      (getTokenFull corruptedWithLegacy).2.2.record = some .malformed ∧
      (getTokenFull (getTokenFull corruptedWithLegacy).2.2).1 ≠ .record := by
  decide

/-- C4 amended (corrected): when `getToken()` falls back to the legacy
mirror and the structured record is *absent, or parses but holds no truthy
token*, the value is immediately migrated into the structured record before
returning, and the immediately following `getToken()` call obtains the token
from the structured record.  (When the record is present but malformed the
migration attempt throws, is caught, and the record is left unchanged — the
claim's "or malformed" case does not migrate.) -/
theorem c4_migrates_when_record_absent_or_tokenless (st : SessionState)
    (t : String)
    (hrec : st.record = none ∨ ∃ p v, st.record = some (.wellFormed p v) ∧
      strTruthy (p.bind (·.token)) = false)
    (hmem : strTruthy st.mem.token = false)
    (hmir : st.mirror = some t) (ht : t ≠ "") :
    (getTokenFull st).1 = .legacy ∧ (getTokenFull st).2.1 = some t ∧
      (∃ p' v', (getTokenFull st).2.2.record = some (.wellFormed (some p') v') ∧
        p'.token = some t) ∧
      (getTokenFull (getTokenFull st).2.2).1 = .record ∧
      (getTokenFull (getTokenFull st).2.2).2.1 = some t := by
  have hbt : (t == "") = false := by simp [ht]
  obtain ⟨m, r, mi⟩ := st
  subst hmir
  rcases hrec with h | ⟨p, v, h, hp⟩
  · subst h
    have e : getTokenFull ⟨m, none, some t⟩ =
        (.legacy, some t,
          ⟨m, some (.wellFormed (some ⟨some t, none⟩) (some 0)), some t⟩) := by
      simp [getTokenFull, accessorBranch, hmem, legacyBranch, ht]
    rw [e]
    refine ⟨rfl, rfl, ⟨⟨some t, none⟩, some 0, rfl, rfl⟩, ?_, ?_⟩
    · simp [getTokenFull, strTruthy, hbt]
    · simp [getTokenFull, strTruthy, hbt]
  · subst h
    have e : getTokenFull ⟨m, some (.wellFormed p v), some t⟩ =
        (.legacy, some t,
          ⟨m, some (.wellFormed (some ⟨some t, p.bind (·.user)⟩) v), some t⟩) := by
      simp [getTokenFull, hp, accessorBranch, hmem, legacyBranch, ht]
    rw [e]
    refine ⟨rfl, rfl, ⟨⟨some t, p.bind (·.user)⟩, v, rfl, rfl⟩, ?_, ?_⟩
    · simp [getTokenFull, strTruthy, hbt]
    · simp [getTokenFull, strTruthy, hbt]

/-- Witness for C4: record absent, mirror `"t"` — the fallback read migrates
and the next call reads from the structured record. -/
theorem c4_migrates_when_record_absent_or_tokenless_witness :
    (getTokenFull ⟨emptyMem, none, some "t"⟩).1 = .legacy ∧
      (getTokenFull ⟨emptyMem, none, some "t"⟩).2.1 = some "t" ∧
      (∃ p' v', (getTokenFull ⟨emptyMem, none, some "t"⟩).2.2.record =
          some (.wellFormed (some p') v') ∧ p'.token = some "t") ∧
      (getTokenFull (getTokenFull ⟨emptyMem, none, some "t"⟩).2.2).1 = .record ∧
      (getTokenFull (getTokenFull ⟨emptyMem, none, some "t"⟩).2.2).2.1 =
        some "t" :=
  c4_migrates_when_record_absent_or_tokenless ⟨emptyMem, none, some "t"⟩ "t"
    (Or.inl rfl) rfl rfl (by decide)

/-- A decimal digit character decodes back to its value. -/
theorem decDigit_toNat (d : Nat) (h : d < 10) : (decDigit d).toNat = 48 + d := by
  unfold decDigit
  interval_cases d <;> decide

/-- A decimal digit character is never the dash separator. -/
theorem decDigit_ne_dash (d : Nat) (h : d < 10) : decDigit d ≠ '-' := by
  unfold decDigit
  interval_cases d <;> decide

/-- Folding the digit values over a decimal rendering recovers the number:
`decChars` is left-invertible. -/
theorem decVal_decChars (n : Nat) : decVal (decChars n) = n := by
  induction n using Nat.strong_induction_on with
  | _ n ih =>
    rw [decChars]
    by_cases h : n < 10
    · simp only [h, dite_true, decVal, List.foldl_cons, List.foldl_nil]
      rw [decDigit_toNat n h]
      omega
    · simp only [h, dite_false]
      have hlt : n / 10 < n := Nat.div_lt_self (by omega) (by omega)
      have hdig := decDigit_toNat (n % 10) (Nat.mod_lt n (by omega))
      have := ih (n / 10) hlt
      unfold decVal at this ⊢
      rw [List.foldl_append, this, List.foldl_cons, List.foldl_nil, hdig]
      omega

/-- Distinct numbers have distinct decimal renderings. -/
theorem decChars_injective (a b : Nat) (h : decChars a = decChars b) : a = b := by
  rw [← decVal_decChars a, h, decVal_decChars]

/-- No character of a decimal rendering is the dash separator. -/
theorem decChars_ne_dash (n : Nat) : ∀ c ∈ decChars n, c ≠ '-' := by
  induction n using Nat.strong_induction_on with
  | _ n ih =>
    rw [decChars]
    by_cases h : n < 10
    · simp only [h, dite_true, List.mem_singleton]
      intro c hc
      subst hc
      exact decDigit_ne_dash n h
    · simp only [h, dite_false]
      intro c hc
      rcases List.mem_append.mp hc with hc | hc
      · exact ih (n / 10) (Nat.div_lt_self (by omega) (by omega)) c hc
      · rw [List.mem_singleton.mp hc]
        exact decDigit_ne_dash (n % 10) (Nat.mod_lt n (by omega))

/-- A dash-separated concatenation with dash-free left parts splits
uniquely. -/
theorem append_dash_inj (d₁ : List Char) (r₁ : List Char) (d₂ r₂ : List Char)
    (h₁ : ∀ c ∈ d₁, c ≠ '-') (h₂ : ∀ c ∈ d₂, c ≠ '-')
    (h : d₁ ++ '-' :: r₁ = d₂ ++ '-' :: r₂) : d₁ = d₂ ∧ r₁ = r₂ := by
  induction d₁ generalizing d₂ with
  | nil =>
    cases d₂ with
    | nil => simpa using h
    | cons b bs =>
      exfalso
      simp only [List.nil_append, List.cons_append, List.cons.injEq] at h
      exact h₂ b (List.mem_cons_self b bs) h.1.symm
  | cons a as ih =>
    cases d₂ with
    | nil =>
      exfalso
      simp only [List.nil_append, List.cons_append, List.cons.injEq] at h
      exact h₁ a (List.mem_cons_self a as) h.1
    | cons b bs =>
      simp only [List.cons_append, List.cons.injEq] at h
      obtain ⟨e1, e2⟩ := ih bs (fun c hc => h₁ c (List.mem_cons_of_mem a hc))
        (fun c hc => h₂ c (List.mem_cons_of_mem b hc)) h.2
      exact ⟨by rw [h.1, e1], e2⟩

/-- The character list of a generated notification id. -/
theorem generateNotificationId_data (now : Nat) (rand : String) :
    (generateNotificationId now rand).data =
      "notif-".data ++ (decChars now ++ '-' :: rand.data) := by
  simp only [generateNotificationId, String.data_append, decimalStr,
    List.append_assoc]
  rfl

/-- C7 counterexample: the claim quantifies over every pair of distinct
creation calls, but two calls that happen in the same millisecond and draw
the same `Math.random()` fragment — which nothing in the code rules out —
produce the very same id, so the universal distinctness claim is false. -/
theorem c7_distinct_ids_counterexample : ¬ allDistinctCallsGiveDistinctIds := by
  intro h
  exact h (fun _ => (100, "abc")) 0 1 (by omega) rfl

/-- C7 amended (corrected): id generation is injective in the pair (clock
millisecond, random fragment) — two creation calls produce distinct ids
exactly when they differ in the timestamp or in the random fragment.  Calls
in distinct milliseconds therefore always get distinct ids, while within one
millisecond distinctness rests entirely on the random component, which the
code does not (and cannot) guarantee to be fresh — the time-based component
alone is indeed insufficient, as the spec notes. -/
theorem c7_id_injective_in_inputs (t₁ t₂ : Nat) (r₁ r₂ : String)
    (h : generateNotificationId t₁ r₁ = generateNotificationId t₂ r₂) :
    t₁ = t₂ ∧ r₁ = r₂ := by
  have hd := congrArg String.data h
  rw [generateNotificationId_data, generateNotificationId_data] at hd
  have hd' := List.append_cancel_left hd
  obtain ⟨e1, e2⟩ := append_dash_inj (decChars t₁) r₁.data (decChars t₂) r₂.data
    (decChars_ne_dash t₁) (decChars_ne_dash t₂) hd'
  exact ⟨decChars_injective t₁ t₂ e1, congrArg String.mk e2⟩

/-- Witness for C7's amended claim at a concrete input. -/
theorem c7_id_injective_in_inputs_witness :
    (1700000000000 : Nat) = 1700000000000 ∧ "ab3xk9q2m" = "ab3xk9q2m" :=
  c7_id_injective_in_inputs 1700000000000 1700000000000 "ab3xk9q2m" "ab3xk9q2m" rfl

/-- The stable sort leaves an already timestamp-descending list unchanged. -/
theorem sortByTimestampDesc_of_sorted (l : List Notification)
    (h : tsSortedDesc l) : sortByTimestampDesc l = l := by
  induction l with
  | nil => rfl
  | cons a l ih =>
    have ht : tsSortedDesc l := h.tail
    rw [sortByTimestampDesc, ih ht]
    cases l with
    | nil => rfl
    | cons b m =>
      have hab : b.timestamp < a.timestamp := (List.chain'_cons.mp h).1
      rw [insertByTimestampDesc, if_neg (by omega)]

/-- Saving a strictly newer entry on top of a sorted store keeps it in front
and truncates: the new entry is never rejected, and only the tail beyond the
bound is evicted. -/
theorem saveNotifications_cons_newest (n : Notification) (l : List Notification)
    (hs : tsSortedDesc l) (hlt : ∀ x ∈ l, x.timestamp < n.timestamp) :
    saveNotifications (n :: l) = (n :: l).take MAX_NOTIFICATIONS := by
  have hsort : sortByTimestampDesc (n :: l) = n :: l := by
    rw [sortByTimestampDesc, sortByTimestampDesc_of_sorted l hs]
    cases l with
    | nil => rfl
    | cons b m =>
      have : b.timestamp < n.timestamp := hlt b (List.mem_cons_self b m)
      rw [insertByTimestampDesc, if_neg (by omega)]
  rw [saveNotifications, hsort]

/-- The expected window after one more create: the new entry in front of the
49 most recent previous ones. -/
theorem expectedWindow_succ (inp : Nat → CreateInput) (k : Nat) :
    expectedWindow inp (k + 1) =
      builtNotification (inp k) :: (expectedWindow inp k).take 49 := by
  unfold expectedWindow
  rw [← List.map_take, List.take_range 49 (min k 50)]
  have hmin : min (k + 1) 50 = min 49 (min k 50) + 1 := by omega
  rw [hmin, List.range_succ_eq_map, List.map_cons, List.map_map]
  refine congrArg₂ List.cons ?_ ?_
  · simp
  · refine List.map_congr_left ?_
    intro i _
    simp only [Function.comp_apply]
    congr 2
    omega

/-- The expected window is strictly timestamp-descending. -/
theorem expectedWindow_sorted (inp : Nat → CreateInput)
    (hmono : ∀ i j, i < j → j < 60 → (inp i).now < (inp j).now)
    (k : Nat) (hk : k ≤ 60) : tsSortedDesc (expectedWindow inp k) := by
  unfold tsSortedDesc expectedWindow
  rw [List.chain'_map]
  rcases hm : min k 50 with _ | m
  · exact List.chain'_nil
  · rw [List.chain'_range_succ]
    intro i hi
    simp only [builtNotification]
    apply hmono
    · omega
    · omega

/-- Every expected-window entry is strictly older than the next create. -/
theorem expectedWindow_lt (inp : Nat → CreateInput)
    (hmono : ∀ i j, i < j → j < 60 → (inp i).now < (inp j).now)
    (k : Nat) (hk : k < 60) :
    ∀ x ∈ expectedWindow inp k,
      x.timestamp < (builtNotification (inp k)).timestamp := by
  intro x hx
  unfold expectedWindow at hx
  rcases List.mem_map.mp hx with ⟨i, hi, rfl⟩
  rw [List.mem_range] at hi
  simp only [builtNotification]
  apply hmono
  · omega
  · omega

/-- The store after `k ≤ 60` sequential creates with strictly increasing
clock readings is exactly the expected window. -/
theorem createSeq_eq_window (inp : Nat → CreateInput)
    (hmono : ∀ i j, i < j → j < 60 → (inp i).now < (inp j).now) :
    ∀ k, k ≤ 60 → createSeq inp k = expectedWindow inp k := by
  intro k
  induction k with
  | zero => intro _; simp [createSeq, expectedWindow]
  | succ k ih =>
    intro hk
    have hk' : k ≤ 60 := by omega
    have hk60 : k < 60 := by omega
    rw [createSeq, createNotification, ih hk']
    show saveNotifications
        (builtNotification (inp k) :: expectedWindow inp k) = _
    rw [saveNotifications_cons_newest _ _
        (expectedWindow_sorted inp hmono k hk')
        (expectedWindow_lt inp hmono k hk60),
      expectedWindow_succ]
    rfl

/-- C5 (confirmed): creating 60 notifications sequentially from the empty
store (strictly increasing clock readings) leaves `list()` with exactly 50
entries, namely the 50 most recently created ones in newest-first
`createdAt` order; at every step the newly created entry is present in the
saved store (never rejected), and each create on a full store keeps the 49
most recent previous entries, silently evicting only the oldest. -/
theorem c5_bounded_log (inp : Nat → CreateInput)
    (hmono : ∀ i j, i < j → j < 60 → (inp i).now < (inp j).now) :
    (listNotifications (createSeq inp 60)).length = 50 ∧
      listNotifications (createSeq inp 60) =
        (List.range 50).map (fun i => builtNotification (inp (59 - i))) ∧
      (∀ k, k < 60 → builtNotification (inp k) ∈ createSeq inp (k + 1)) ∧
      (∀ k, 50 ≤ k → k < 60 →
        createSeq inp (k + 1) =
          builtNotification (inp k) :: (createSeq inp k).take 49) := by
  have hstep : ∀ k, k < 60 →
      createSeq inp (k + 1) =
        builtNotification (inp k) :: (createSeq inp k).take 49 := by
    intro k hk
    rw [createSeq_eq_window inp hmono (k + 1) (by omega),
      createSeq_eq_window inp hmono k (by omega)]
    exact expectedWindow_succ inp k
  have h60 : createSeq inp 60 = expectedWindow inp 60 :=
    createSeq_eq_window inp hmono 60 (by omega)
  refine ⟨?_, ?_, ?_, fun k _ hk => hstep k hk⟩
  · rw [listNotifications, h60]
    simp [expectedWindow]
  · rw [listNotifications, h60]
    rfl
  · intro k hk
    rw [hstep k hk]
    exact List.mem_cons_self _ _

/-- Witness for C5 at concrete inputs: timestamps `0, 1, …, 59`. -/
theorem c5_bounded_log_witness :
    (listNotifications
        (createSeq (fun i => ⟨.info, "t", "m", none, i, "r"⟩) 60)).length = 50 ∧
      listNotifications
          (createSeq (fun i => ⟨.info, "t", "m", none, i, "r"⟩) 60) =
        (List.range 50).map
          (fun i => builtNotification
            ((fun i => (⟨.info, "t", "m", none, i, "r"⟩ : CreateInput)) (59 - i))) ∧
      (∀ k, k < 60 →
        builtNotification
            ((fun i => (⟨.info, "t", "m", none, i, "r"⟩ : CreateInput)) k) ∈
          createSeq (fun i => ⟨.info, "t", "m", none, i, "r"⟩) (k + 1)) ∧
      (∀ k, 50 ≤ k → k < 60 →
        createSeq (fun i => ⟨.info, "t", "m", none, i, "r"⟩) (k + 1) =
          builtNotification
              ((fun i => (⟨.info, "t", "m", none, i, "r"⟩ : CreateInput)) k) ::
            (createSeq (fun i => ⟨.info, "t", "m", none, i, "r"⟩) k).take 49) :=
  c5_bounded_log (fun i => ⟨.info, "t", "m", none, i, "r"⟩)
    (fun _i _j hij _ => hij)

/-- C8 (confirmed, spec-modelled bus): for a publish occurrence at trace
position `i`, a handler receives the payload — synchronously, as part of
that occurrence's delivery list — exactly when it is registered for the
event name at that moment; and the occurrence's deliveries are entirely
determined by the trace up to and including the publish, so a listener that
subscribes only after the publish returns can never receive it — nothing is
persisted, queued, or replayed. -/
theorem c8_delivery_iff_subscribed_before (ops : List BusOp) (i : Nat)
    (name : String) (p h : Nat) (hop : ops[i]? = some (.pub name p)) :
    ((h, p) ∈ deliveredAt ops i ↔
      (name, h) ∈ (busAfter (ops.take i)).listeners) ∧
    (∀ ops' : List BusOp, ops'.take (i + 1) = ops.take (i + 1) →
      deliveredAt ops' i = deliveredAt ops i) := by
  constructor
  · simp only [deliveredAt, hop]
    constructor
    · intro hm
      obtain ⟨⟨q1, q2⟩, hq, he⟩ := List.mem_map.mp hm
      obtain ⟨hqL, hqn⟩ := List.mem_filter.mp hq
      simp only [beq_iff_eq] at hqn
      injection he with he1 _
      subst hqn
      subst he1
      exact hqL
    · intro hm
      exact List.mem_map.mpr ⟨(name, h), List.mem_filter.mpr ⟨hm, by simp⟩, rfl⟩
  · intro ops' hpre
    have h1 : ops'[i]? = ops[i]? := by
      have e1 : (ops'.take (i + 1))[i]? = ops'[i]? := by
        rw [List.getElem?_take]; simp
      have e2 : (ops.take (i + 1))[i]? = ops[i]? := by
        rw [List.getElem?_take]; simp
      rw [← e1, hpre, e2]
    have h2 : ops'.take i = ops.take i := by
      have e1 : (ops'.take (i + 1)).take i = ops'.take i := by
        rw [List.take_take]; simp [Nat.min_def]
      have e2 : (ops.take (i + 1)).take i = ops.take i := by
        rw [List.take_take]; simp [Nat.min_def]
      rw [← e1, hpre, e2]
    rw [deliveredAt, deliveredAt, h1, h2]

/-- Witness for C8 on the concrete trace: the listener subscribed before the
publish receives the payload during that occurrence, and the listener that
subscribes after the publish does not. -/
theorem c8_delivery_iff_subscribed_before_witness :
    (1, 7) ∈ deliveredAt busDemoOps 1 ∧ (2, 7) ∉ deliveredAt busDemoOps 1 :=
  ⟨(c8_delivery_iff_subscribed_before busDemoOps 1 "graph-data-updated" 7 1
      rfl).1.mpr (by decide),
    fun hm => by
      have hmem := (c8_delivery_iff_subscribed_before busDemoOps 1
        "graph-data-updated" 7 2 rfl).1.mp hm
      revert hmem
      decide⟩

/-- C9 (confirmed): in the HYDRATING state — client context confirmed
(`isClient`) but the auth check not yet passed (`¬ hasCheckedAuth`) — the
dashboard layout renders the neutral loading view and never the protected
content (rendering is pure, so no redirect happens from a render); the
`hasCheckedAuth` and `redirected` outputs change only when the scheduled
`checkAuth` callback fires, and that callback is scheduled only by the
post-mount effect once the client flag is set — the deliberate
`setTimeout(checkAuth, 0)` delay, whose decision reads the session state
(including the persisted mirror directly) as it is when the callback runs,
i.e. after storage rehydration. -/
theorem c9_hydrating_loads_and_delayed_check (g : GuardState) (e : GuardEvent) :
    (g.isClient = true → g.hasCheckedAuth = false →
      renderGuard g = .loadingView ∧ renderGuard g ≠ .protectedView) ∧
    ((guardStep g e).hasCheckedAuth ≠ g.hasCheckedAuth ∨
        (guardStep g e).redirected ≠ g.redirected →
      g.checkScheduled = true ∧ isCheckEvent e = true) ∧
    ((guardStep g e).checkScheduled = true →
      g.checkScheduled = true ∨ (e = .authEffect ∧ g.isClient = true)) := by
  refine ⟨?_, ?_, ?_⟩
  · intro h1 h2
    constructor
    · simp [renderGuard, h1, h2]
    · simp [renderGuard, h1, h2]
  · intro hch
    cases e with
    | clientEffect => simp [guardStep] at hch
    | authEffect =>
      by_cases hc : g.isClient
      · simp [guardStep, hc] at hch
      · simp [guardStep, hc] at hch
    | checkFires sess =>
      by_cases hs : g.checkScheduled
      · exact ⟨hs, rfl⟩
      · simp [guardStep, hs] at hch
  · intro hsch
    cases e with
    | clientEffect => exact Or.inl (by simpa [guardStep] using hsch)
    | authEffect =>
      by_cases hc : g.isClient
      · exact Or.inr ⟨rfl, hc⟩
      · exact Or.inl (by simpa [guardStep, hc] using hsch)
    | checkFires sess =>
      by_cases hs : g.checkScheduled
      · exact Or.inl hs
      · by_cases ha : hasAuthOf sess
        · exact Or.inl (by simp [guardStep, hs, ha] at hsch)
        · exact Or.inl (by simp [guardStep, hs, ha] at hsch)

/-- Witness for C9: a hydrating guard with the check scheduled renders the
loading view, and the transition the firing check causes (here: redirect,
since the session is logged out) indeed comes from the scheduled check
event. -/
theorem c9_hydrating_loads_and_delayed_check_witness :
    renderGuard ⟨true, false, true, false⟩ = .loadingView ∧
      ((⟨true, false, true, false⟩ : GuardState).checkScheduled = true ∧
        isCheckEvent (.checkFires teardownState) = true) :=
  ⟨((c9_hydrating_loads_and_delayed_check ⟨true, false, true, false⟩
      (.checkFires teardownState)).1 rfl rfl).1,
    (c9_hydrating_loads_and_delayed_check ⟨true, false, true, false⟩
      (.checkFires teardownState)).2.1 (by decide)⟩

end Suraksh
